import Mathlib

/-
  Verification of the kimchi-premium arbitrage engine.

  Shallow embedding of the core components of the repository:
    * src/src/utils/risk_manager.py        (RiskManager)
    * src/src/utils/premium_calculator.py  (PremiumCalculator)
    * src/src/utils/exchange_rate.py       (ExchangeRateProvider)
    * src/src/strategies/forward_arbitrage.py (transfer-wait loops)
    * src/main.py                          (trade driver)

  Python `Decimal` values are modelled as exact rationals (ℚ).  Wall-clock
  metadata that is written but never read by the verified logic (dataclass
  `timestamp` fields, `TradingMetrics.last_updated`, per-trade `start_time`)
  is omitted from the embedding; dates that the logic does read
  (`last_reset_date`, the current local date) are modelled as integers.
-/

namespace Kimchi

/-! ## Risk manager data model (risk_manager.py) -/

/-- `RiskLimits` dataclass (risk_manager.py lines 11-19). -/
structure RiskLimits where
  max_single_trade_krw : ℚ
  max_daily_volume_krw : ℚ
  max_concurrent_trades : ℕ
  max_slippage_percent : ℚ
  emergency_stop_loss_percent : ℚ
  min_exchange_balance_krw : ℚ
  max_exposure_percent : ℚ
  deriving DecidableEq, Repr

/-- `TradingMetrics` dataclass (risk_manager.py lines 22-31); `last_updated`
omitted (wall-clock metadata, never read by any decision). -/
structure TradingMetrics where
  daily_volume_krw : ℚ
  daily_profit_krw : ℚ
  daily_loss_krw : ℚ
  total_trades : ℕ
  successful_trades : ℕ
  failed_trades : ℕ
  current_exposure_krw : ℚ
  deriving DecidableEq, Repr

/-- `ArbitrageOpportunity` dataclass (premium_calculator.py lines 33-43);
`timestamp` omitted (never read). -/
structure ArbitrageOpportunity where
  coin_symbol : String
  direction : String
  coin_premium : ℚ
  tether_premium : ℚ
  total_fees : ℚ
  expected_profit : ℚ
  safety_margin : ℚ
  trade_amount_krw : ℚ
  deriving DecidableEq, Repr

/-- `ArbitrageOpportunity.net_profit_rate` property
(premium_calculator.py lines 45-47). -/
def ArbitrageOpportunity.net_profit_rate (o : ArbitrageOpportunity) : ℚ :=
  o.expected_profit - o.total_fees - o.safety_margin

/-- The mutable state of a `RiskManager` instance: the risk limits, the
`active_trades` dict (an insertion-ordered map, modelled as an association
list keyed by trade id; the stored per-trade dict keeps the opportunity —
its `start_time`/`status` entries are never read), the daily metrics and
`last_reset_date` (a local date, modelled as an integer day number). -/
structure RiskManager where
  limits : RiskLimits
  active_trades : List (String × ArbitrageOpportunity)
  daily_metrics : TradingMetrics
  last_reset_date : ℤ
  deriving DecidableEq, Repr

/-- `RiskManager.__init__` (risk_manager.py lines 35-49). -/
def initRiskManager (limits : RiskLimits) (today : ℤ) : RiskManager :=
  { limits := limits
    active_trades := []
    daily_metrics :=
      { daily_volume_krw := 0
        daily_profit_krw := 0
        daily_loss_krw := 0
        total_trades := 0
        successful_trades := 0
        failed_trades := 0
        current_exposure_krw := 0 }
    last_reset_date := today }

/-! ## Risk manager operations -/

/-- `RiskManager._get_max_exposure` (risk_manager.py lines 202-204). -/
def getMaxExposure (l : RiskLimits) : ℚ :=
  l.max_daily_volume_krw * (l.max_exposure_percent / 100)

/-- `RiskManager._check_daily_reset` (risk_manager.py lines 206-220):
on a strictly later local date, rebuild the metrics with zeroed counters,
keeping only `current_exposure_krw`. -/
def checkDailyReset (today : ℤ) (rm : RiskManager) : RiskManager :=
  if rm.last_reset_date < today then
    { rm with
      daily_metrics :=
        { daily_volume_krw := 0
          daily_profit_krw := 0
          daily_loss_krw := 0
          total_trades := 0
          successful_trades := 0
          failed_trades := 0
          current_exposure_krw := rm.daily_metrics.current_exposure_krw }
      last_reset_date := today }
  else rm

/-- The failure reasons of `can_execute_trade`, carrying the values that the
Python f-strings interpolate.  Rendered to the exact strings by
`AdmissionReason.render`. -/
inductive AdmissionReason where
  | maxConcurrentReached (maxConcurrent : ℕ)
  | exceedsSingleTradeLimit (maxSingle : ℚ)
  | exceedsDailyVolumeLimit (maxDaily : ℚ)
  | exceedsExposureLimit
  | notProfitable
  | approved
  deriving DecidableEq, Repr

/-- Python `format(x, ",.0f")` rounding step: round half to even. -/
def roundHalfEven (q : ℚ) : ℤ :=
  let f := ⌊q⌋
  let r := q - f
  if r < 1/2 then f
  else if 1/2 < r then f + 1
  else if f % 2 = 0 then f else f + 1

/-- Insert thousands separators into a reversed digit list
(`k` is the 0-based position from the right). -/
def groupRev : List Char → ℕ → List Char
  | [], _ => []
  | c :: t, k =>
    if 0 < k ∧ k % 3 = 0 then ',' :: c :: groupRev t (k + 1)
    else c :: groupRev t (k + 1)

/-- Thousands-grouped decimal rendering of a natural number. -/
def formatGrouped (n : ℕ) : String :=
  String.mk ((groupRev (toString n).toList.reverse 0).reverse)

/-- Python `f"{x:,.0f}"` on a `Decimal`. -/
def formatF0 (q : ℚ) : String :=
  let i := roundHalfEven q
  (if i < 0 then "-" else "") ++ formatGrouped i.natAbs

/-- The exact reason strings built by the f-strings in
`can_execute_trade` (risk_manager.py lines 57-78). -/
def AdmissionReason.render : AdmissionReason → String
  | .maxConcurrentReached n =>
      "Maximum concurrent trades reached (" ++ toString n ++ ")"
  | .exceedsSingleTradeLimit m =>
      "Trade amount exceeds single trade limit (" ++ formatF0 m ++ " KRW)"
  | .exceedsDailyVolumeLimit m =>
      "Trade would exceed daily volume limit (" ++ formatF0 m ++ " KRW)"
  | .exceedsExposureLimit => "Trade would exceed maximum exposure limit"
  | .notProfitable => "Trade opportunity no longer profitable"
  | .approved => "Trade approved"

/-- The admission checks of `can_execute_trade` (risk_manager.py lines
56-78), evaluated on the state that results from the daily-reset call. -/
def admissionDecision (rm : RiskManager) (o : ArbitrageOpportunity) :
    Bool × AdmissionReason :=
  if rm.limits.max_concurrent_trades ≤ rm.active_trades.length then
    (false, .maxConcurrentReached rm.limits.max_concurrent_trades)
  else if rm.limits.max_single_trade_krw < o.trade_amount_krw then
    (false, .exceedsSingleTradeLimit rm.limits.max_single_trade_krw)
  else if rm.limits.max_daily_volume_krw <
      rm.daily_metrics.daily_volume_krw + o.trade_amount_krw then
    (false, .exceedsDailyVolumeLimit rm.limits.max_daily_volume_krw)
  else if getMaxExposure rm.limits <
      rm.daily_metrics.current_exposure_krw + o.trade_amount_krw then
    (false, .exceedsExposureLimit)
  else if o.net_profit_rate ≤ 0 then
    (false, .notProfitable)
  else (true, .approved)

/-- `RiskManager.can_execute_trade` (risk_manager.py lines 51-78):
first `_check_daily_reset`, then the five admission checks in order.
Returns the updated state together with the (bool, reason) pair. -/
def canExecuteTrade (today : ℤ) (o : ArbitrageOpportunity) (rm : RiskManager) :
    RiskManager × Bool × AdmissionReason :=
  let rm2 := checkDailyReset today rm
  (rm2, admissionDecision rm2 o)

/-- Python dict assignment `self.active_trades[trade_id] = {...}`:
replace in place if the key exists, else append. -/
def dictInsert (trade_id : String) (o : ArbitrageOpportunity)
    (l : List (String × ArbitrageOpportunity)) :
    List (String × ArbitrageOpportunity) :=
  if l.any (fun p => p.1 = trade_id) then
    l.map (fun p => if p.1 = trade_id then (trade_id, o) else p)
  else l ++ [(trade_id, o)]

/-- `RiskManager.register_trade_start` (risk_manager.py lines 80-88). -/
def registerTradeStart (trade_id : String) (o : ArbitrageOpportunity)
    (rm : RiskManager) : RiskManager :=
  { rm with
    active_trades := dictInsert trade_id o rm.active_trades
    daily_metrics :=
      { rm.daily_metrics with
        current_exposure_krw :=
          rm.daily_metrics.current_exposure_krw + o.trade_amount_krw
        total_trades := rm.daily_metrics.total_trades + 1 } }

/-- Python `dict.pop(trade_id)` on an association list with unique keys:
return the first entry with the key together with the list without it. -/
def popFirst (trade_id : String) :
    List (String × ArbitrageOpportunity) →
    Option (ArbitrageOpportunity × List (String × ArbitrageOpportunity))
  | [] => none
  | p :: t =>
    if p.1 = trade_id then some (p.2, t)
    else
      match popFirst trade_id t with
      | none => none
      | some (o, rest) => some (o, p :: rest)

/-- `RiskManager.register_trade_complete` (risk_manager.py lines 90-112):
an unknown trade id only logs a warning and returns; otherwise the ledger
entry is released and the counters updated. -/
def registerTradeComplete (trade_id : String) (profit_krw : ℚ)
    (success : Bool) (rm : RiskManager) : RiskManager :=
  match popFirst trade_id rm.active_trades with
  | none => rm
  | some (o, rest) =>
    let m := rm.daily_metrics
    let m := { m with
      current_exposure_krw := m.current_exposure_krw - o.trade_amount_krw
      daily_volume_krw := m.daily_volume_krw + o.trade_amount_krw }
    let m :=
      if success then
        if 0 < profit_krw then
          { m with successful_trades := m.successful_trades + 1
                   daily_profit_krw := m.daily_profit_krw + profit_krw }
        else
          { m with successful_trades := m.successful_trades + 1
                   daily_loss_krw := m.daily_loss_krw + |profit_krw| }
      else
        { m with failed_trades := m.failed_trades + 1
                 daily_loss_krw := m.daily_loss_krw + |profit_krw| }
    { rm with active_trades := rest, daily_metrics := m }

/-- The emergency-stop reasons, carrying the interpolated rates. -/
inductive EmergencyReason where
  | dailyLoss (lossRate : ℚ)
  | highFailureRate (failureRate : ℚ)
  | normal
  deriving DecidableEq, Repr

/-- Second check of `check_emergency_stop` (risk_manager.py lines 122-128):
failure rate above 50% once more than 10 trades were registered.  The
Python `/` on ints yields a float; exact rational division agrees with it
on the `> 50` comparison for any realistic counter size. -/
def checkFailureRateStop (rm : RiskManager) : Bool × EmergencyReason :=
  if 10 < rm.daily_metrics.total_trades then
    let failure_rate :=
      (rm.daily_metrics.failed_trades : ℚ) / rm.daily_metrics.total_trades * 100
    if 50 < failure_rate then (true, .highFailureRate failure_rate)
    else (false, .normal)
  else (false, .normal)

/-- `RiskManager.check_emergency_stop` (risk_manager.py lines 114-128).
The method reads the daily counters and returns; it stores nothing, so the
embedding returns only the value (the state is untouched by construction). -/
def checkEmergencyStop (rm : RiskManager) : Bool × EmergencyReason :=
  if 0 < rm.daily_metrics.daily_volume_krw ∧
      rm.limits.emergency_stop_loss_percent <
        rm.daily_metrics.daily_loss_krw / rm.daily_metrics.daily_volume_krw * 100
  then
    (true, .dailyLoss
      (rm.daily_metrics.daily_loss_krw / rm.daily_metrics.daily_volume_krw * 100))
  else checkFailureRateStop rm

/-- The value part of `RiskManager.get_trading_metrics`
(risk_manager.py lines 130-151), sans the iso timestamp. -/
structure MetricsReport where
  daily_volume_krw : ℚ
  daily_profit_krw : ℚ
  daily_loss_krw : ℚ
  net_profit_krw : ℚ
  total_trades : ℕ
  successful_trades : ℕ
  failed_trades : ℕ
  success_rate : ℚ
  current_exposure_krw : ℚ
  active_trades : ℕ
  deriving DecidableEq, Repr

/-- `RiskManager.get_trading_metrics` (risk_manager.py lines 130-151):
runs `_check_daily_reset`, then reports the counters. -/
def getTradingMetrics (today : ℤ) (rm : RiskManager) :
    MetricsReport × RiskManager :=
  let rm2 := checkDailyReset today rm
  let m := rm2.daily_metrics
  ({ daily_volume_krw := m.daily_volume_krw
     daily_profit_krw := m.daily_profit_krw
     daily_loss_krw := m.daily_loss_krw
     net_profit_krw := m.daily_profit_krw - m.daily_loss_krw
     total_trades := m.total_trades
     successful_trades := m.successful_trades
     failed_trades := m.failed_trades
     success_rate :=
       if 0 < m.total_trades then
         (m.successful_trades : ℚ) / m.total_trades * 100
       else 0
     current_exposure_krw := m.current_exposure_krw
     active_trades := rm2.active_trades.length }, rm2)

/-! ## Premium calculator (premium_calculator.py)

The calculator's network reads are modelled as explicit inputs: a fetch
that raises is a `none` (the surrounding `try`/`except` turns any raise
into the documented fallback).  Within one `check_arbitrage_opportunity`
call the environment is assumed not to change between fetches. -/

/-- `PremiumInfo` dataclass (premium_calculator.py lines 13-30);
`timestamp` omitted (never read). -/
structure PremiumInfo where
  symbol : String
  upbit_price_krw : ℚ
  binance_price_usdt : ℚ
  binance_price_krw : ℚ
  premium_rate : ℚ
  reverse_premium_rate : ℚ
  usd_krw_rate : ℚ
  deriving DecidableEq, Repr

/-- `PremiumInfo.is_kimchi_premium` property (premium_calculator.py
lines 24-26). -/
def PremiumInfo.is_kimchi_premium (p : PremiumInfo) : Bool :=
  decide (0 < p.premium_rate)

/-- `PremiumInfo.is_reverse_premium` property (premium_calculator.py
lines 28-30). -/
def PremiumInfo.is_reverse_premium (p : PremiumInfo) : Bool :=
  decide (p.premium_rate < 0)

/-- `PremiumCalculator.calculate_premium` (premium_calculator.py lines
71-107).  A failed ticker fetch raises (→ `none`); an unavailable fiat
rate returns `None`; a zero KRW-converted price would raise
`DivisionByZero` inside the `try`, also yielding `None`. -/
def calculatePremium (symbol : String)
    (upbit_price binance_price_usdt usd_krw_rate : Option ℚ) :
    Option PremiumInfo :=
  match upbit_price, binance_price_usdt with
  | some up, some bp =>
    match usd_krw_rate with
    | none => none
    | some r =>
      let bkrw := bp * r
      if bkrw = 0 then none
      else
        let prem := (up - bkrw) / bkrw * 100
        some { symbol := symbol
               upbit_price_krw := up
               binance_price_usdt := bp
               binance_price_krw := bkrw
               premium_rate := prem
               reverse_premium_rate := -prem
               usd_krw_rate := r }
  | _, _ => none

/-- `PremiumCalculator.calculate_tether_premium` (premium_calculator.py
lines 109-139). -/
def calculateTetherPremium (upbit_usdt_price usd_krw_rate : Option ℚ) :
    Option PremiumInfo :=
  match upbit_usdt_price with
  | none => none
  | some up =>
    match usd_krw_rate with
    | none => none
    | some r =>
      if r = 0 then none
      else
        let prem := (up - r) / r * 100
        some { symbol := "USDT"
               upbit_price_krw := up
               binance_price_usdt := 1
               binance_price_krw := r
               premium_rate := prem
               reverse_premium_rate := -prem
               usd_krw_rate := r }

/-- The `WITHDRAWAL_FEES` table (premium_calculator.py lines 60-69);
for USDT the code always picks the TRC20 entry, so the nested dict is
collapsed to that value. -/
def WITHDRAWAL_FEES : String → Option ℚ
  | "BTC" => some (5/10000)
  | "ETH" => some (5/1000)
  | "USDT" => some 1
  | "XRP" => some (25/100)
  | "ADA" => some 1
  | "SOL" => some (1/100)
  | "DOT" => some (1/10)
  | "AVAX" => some (1/100)
  | _ => none

/-- `PremiumCalculator._get_withdrawal_fee_rate` (premium_calculator.py
lines 215-231).  A failed price fetch, or division by a zero price,
raises inside the bare `except` and yields the 0.1% default. -/
def getWithdrawalFeeRate (coin_symbol : String)
    (binance_price : Option ℚ) : ℚ :=
  match WITHDRAWAL_FEES coin_symbol with
  | none => 1/1000
  | some fee =>
    match binance_price with
    | some price => if price = 0 then 1/1000 else fee / price
    | none => 1/1000

/-- `PremiumCalculator._calculate_total_fees` (premium_calculator.py
lines 203-213): two Binance trading fees (0.1% each), two Upbit trading
fees (0.05% each), the coin withdrawal-fee rate and an approximate USDT
withdrawal fee, all converted to percent. -/
def calculateTotalFees (coin_symbol : String)
    (binance_price : Option ℚ) : ℚ :=
  ((1/1000) * 2 + (5/10000) * 2
    + getWithdrawalFeeRate coin_symbol binance_price + 1/10000) * 100

/-- An order book side is a list of (price, quantity) levels. -/
structure OrderBook where
  bids : List (ℚ × ℚ)
  asks : List (ℚ × ℚ)
  deriving DecidableEq, Repr

/-- `sum(price * qty for price, qty in levels[:5])`. -/
def sumTop5 (levels : List (ℚ × ℚ)) : ℚ :=
  ((levels.take 5).map (fun p => p.1 * p.2)).sum

/-- `PremiumCalculator._calculate_optimal_trade_amount`
(premium_calculator.py lines 233-265): min of the four top-5 notional
sums (Binance sums converted to KRW), times the 30% depth-utilization
factor, then `max(min_amount, min(available, max_amount))`.  A failed
order-book fetch, or a `None` fiat rate (which makes `sum * None` raise),
lands in the `except` branch and returns `min_amount`. -/
def calculateOptimalTradeAmount (upbit_orderbook binance_orderbook : Option OrderBook)
    (usd_krw_rate : Option ℚ) (min_amount max_amount : ℚ) : ℚ :=
  match upbit_orderbook, binance_orderbook, usd_krw_rate with
  | some uob, some bob, some r =>
    let upbit_bid_liquidity := sumTop5 uob.bids
    let upbit_ask_liquidity := sumTop5 uob.asks
    let binance_bid_liquidity := sumTop5 bob.bids * r
    let binance_ask_liquidity := sumTop5 bob.asks * r
    let available_liquidity :=
      min (min upbit_bid_liquidity upbit_ask_liquidity)
          (min binance_bid_liquidity binance_ask_liquidity) * (3/10)
    max min_amount (min available_liquidity max_amount)
  | _, _, _ => min_amount

/-- The market reads one `check_arbitrage_opportunity` call performs:
the two coin tickers, the EX-K USDT ticker, the fiat rate and the two
order books.  A `none` models a fetch that raises or a provider chain
that returns `None`. -/
structure MarketEnv where
  upbit_coin_price : Option ℚ
  binance_coin_price : Option ℚ
  upbit_usdt_price : Option ℚ
  usd_krw_rate : Option ℚ
  upbit_orderbook : Option OrderBook
  binance_orderbook : Option OrderBook

/-- `PremiumCalculator.check_arbitrage_opportunity`
(premium_calculator.py lines 141-201). -/
def checkArbitrageOpportunity (env : MarketEnv) (coin_symbol : String)
    (safety_margin min_trade_amount_krw max_trade_amount_krw : ℚ) :
    Option ArbitrageOpportunity :=
  match calculatePremium coin_symbol env.upbit_coin_price
      env.binance_coin_price env.usd_krw_rate with
  | none => none
  | some coin_premium =>
    match calculateTetherPremium env.upbit_usdt_price env.usd_krw_rate with
    | none => none
    | some tether_premium =>
      let total_fees := calculateTotalFees coin_symbol env.binance_coin_price
      if coin_premium.is_reverse_premium then
        let profit_rate := |coin_premium.premium_rate| - tether_premium.premium_rate
        if total_fees + safety_margin < profit_rate then
          some { coin_symbol := coin_symbol
                 direction := "forward"
                 coin_premium := coin_premium.premium_rate
                 tether_premium := tether_premium.premium_rate
                 total_fees := total_fees
                 expected_profit := profit_rate
                 safety_margin := safety_margin
                 trade_amount_krw :=
                   calculateOptimalTradeAmount env.upbit_orderbook
                     env.binance_orderbook env.usd_krw_rate
                     min_trade_amount_krw max_trade_amount_krw }
        else none
      else if coin_premium.is_kimchi_premium then
        let profit_rate := coin_premium.premium_rate - tether_premium.premium_rate
        if total_fees + safety_margin < profit_rate then
          some { coin_symbol := coin_symbol
                 direction := "reverse"
                 coin_premium := coin_premium.premium_rate
                 tether_premium := tether_premium.premium_rate
                 total_fees := total_fees
                 expected_profit := profit_rate
                 safety_margin := safety_margin
                 trade_amount_krw :=
                   calculateOptimalTradeAmount env.upbit_orderbook
                     env.binance_orderbook env.usd_krw_rate
                     min_trade_amount_krw max_trade_amount_krw }
        else none
      else none

/-! ## Fiat-rate provider (exchange_rate.py)

The cache for the single key `"USD_KRW"` is modelled as
`Option (value × lastUpdate)` (the Python code keeps the pair split over
`_cache` and `_last_update`; `_is_cache_valid` requires both).  Time is in
seconds.  The chain of the three providers is collapsed into one
`provider_rate : Option ℚ` — the first successful provider's value, or
`none` when all fail. -/

/-- `ExchangeRateProvider._is_cache_valid` (exchange_rate.py lines 62-67). -/
def isCacheValid (cache_duration : ℚ) (cache : Option (ℚ × ℚ)) (now : ℚ) :
    Bool :=
  match cache with
  | none => false
  | some c => decide (now - c.2 < cache_duration)

/-- `ExchangeRateProvider.get_usd_krw_rate` (exchange_rate.py lines
15-60).  The result pairs the rate with a flag that is `true` exactly
when the stale-cache branch served it (the branch that logs the
"Using stale exchange rate" warning); the Python return value itself
carries no such flag. -/
def getUsdKrwRate (cache_duration : ℚ) (cache : Option (ℚ × ℚ)) (now : ℚ)
    (provider_rate : Option ℚ) : Option (ℚ × Bool) :=
  if isCacheValid cache_duration cache now then
    cache.map (fun c => (c.1, false))
  else
    match provider_rate with
    | some rate => some (rate, false)
    | none =>
      match cache with
      | some c => if now - c.2 < 3600 then some (c.1, true) else none
      | none => none

/-! ## Forward-strategy transfer wait (forward_arbitrage.py) and the
trade driver (main.py)

The wait loop reads the destination balance once before the loop and then
once per iteration, sleeping 30 s between polls; with the checks
instantaneous, poll `i` happens at wall-clock `30 * i` seconds and the
`while datetime.now() - start_time < self.transfer_timeout` guard admits
exactly `transfer_timeout_minutes * 60 / 30` polls.  The venue state
during one wait is a trace `balance_at : ℕ → ℚ` of the balances the polls
would observe, plus the venue's deposit history (which the forward
strategy never queries). -/

/-- A deposit-history entry as returned by the venue. -/
structure DepositHistoryEntry where
  amount : ℚ
  state : String
  deriving DecidableEq, Repr

/-- The observable venue state during one transfer wait. -/
structure TransferEnv where
  initial_balance : ℚ
  balance_at : ℕ → ℚ
  deposit_entries : List DepositHistoryEntry

/-- The success test of one poll (forward_arbitrage.py lines 283-289):
the balance rose, and the rise is at least 99% of the transferred
amount. -/
def depositObserved (initial current amount : ℚ) : Bool :=
  decide (initial < current) && decide (amount * (99/100) ≤ current - initial)

/-- The polling loop of `_wait_for_binance_deposit`
(forward_arbitrage.py lines 281-297), fuelled by the remaining number of
polls; returns the index of the first successful poll, or `none` when the
ceiling is reached (the Python code then raises `TimeoutError`). -/
def waitLoop (initial : ℚ) (bal : ℕ → ℚ) (amount : ℚ) :
    ℕ → ℕ → Option ℕ
  | _, 0 => none
  | i, Nat.succ fuel =>
    if depositObserved initial (bal i) amount then some i
    else waitLoop initial bal amount (i + 1) fuel

/-- `transfer_timeout_minutes * 60 / poll_interval` with the fixed 30 s
poll interval. -/
def transferNumPolls (transfer_timeout_minutes : ℕ) : ℕ :=
  transfer_timeout_minutes * 60 / 30

/-- `ForwardArbitrageStrategy._wait_for_binance_deposit`
(forward_arbitrage.py lines 266-297), real-trading path.
`_wait_for_upbit_deposit` (lines 299-330) is the same loop against the
other venue. -/
def waitForBinanceDeposit (env : TransferEnv) (amount : ℚ)
    (transfer_timeout_minutes : ℕ) : Option ℕ :=
  waitLoop env.initial_balance env.balance_at amount 0
    (transferNumPolls transfer_timeout_minutes)

/-- The two terminal statuses of `ForwardArbitrageStrategy.execute_arbitrage`
relevant here (`TradeStatus` enum, forward_arbitrage.py lines 13-21). -/
inductive TradeStatus where
  | completed
  | failed
  deriving DecidableEq, Repr

/-- `ForwardArbitrageStrategy.execute_arbitrage` (forward_arbitrage.py
lines 43-88) after the EX-K buy, as a function of the transfer-wait
result: a timeout raises `TimeoutError`, which the surrounding `except`
turns into a FAILED record with no `profit` key; when the wait succeeds
the remaining steps are abstracted by the profit they would report
(claims about them are out of scope here). -/
def forwardTradeAfterTransferWait (waitResult : Option ℕ)
    (later_steps_profit : ℚ) : TradeStatus × Option ℚ :=
  match waitResult with
  | none => (TradeStatus.failed, none)
  | some _ => (TradeStatus.completed, some later_steps_profit)

/-- `ArbitrageTradingBot._execute_arbitrage` (main.py lines 379-410),
completion half: the strategy result is turned into the single
`register_trade_complete(trade_id, profit, success)` call, with
`success = (status == completed)` and
`profit = result.get('profit', {}).get('profit_krw', Decimal('0'))`.
The returned list holds one `(profit, success)` pair per call made. -/
def registerCompleteCalls (result : TradeStatus × Option ℚ) :
    List (ℚ × Bool) :=
  [(result.2.getD 0, result.1 == TradeStatus.completed)]

/-! ## Derived predicates and invariants -/

/-- Total sized amount registered in the active-trade ledger. -/
def ledgerSum (l : List (String × ArbitrageOpportunity)) : ℚ :=
  (l.map (fun p => p.2.trade_amount_krw)).sum

/-- The risk-ledger conservation invariant: the tracked exposure equals
the sum of the sized amounts of the active trades. -/
def exposureConserved (rm : RiskManager) : Prop :=
  rm.daily_metrics.current_exposure_krw = ledgerSum rm.active_trades

/-- Admission predicate 1: active-trade count below `maxConcurrent`. -/
def admitsConcurrency (rm : RiskManager) : Prop :=
  rm.active_trades.length < rm.limits.max_concurrent_trades

/-- Admission predicate 2: sized amount at most `maxSingleTradeKrw`. -/
def admitsSingleTrade (rm : RiskManager) (o : ArbitrageOpportunity) : Prop :=
  o.trade_amount_krw ≤ rm.limits.max_single_trade_krw

/-- Admission predicate 3: daily volume plus amount at most
`maxDailyVolumeKrw`. -/
def admitsDailyVolume (rm : RiskManager) (o : ArbitrageOpportunity) : Prop :=
  rm.daily_metrics.daily_volume_krw + o.trade_amount_krw ≤
    rm.limits.max_daily_volume_krw

/-- Admission predicate 4: exposure plus amount at most
`maxDailyVolumeKrw × maxExposurePct / 100`. -/
def admitsExposure (rm : RiskManager) (o : ArbitrageOpportunity) : Prop :=
  rm.daily_metrics.current_exposure_krw + o.trade_amount_krw ≤
    getMaxExposure rm.limits

/-- Admission predicate 5: net profit positive. -/
def admitsProfit (o : ArbitrageOpportunity) : Prop :=
  0 < o.net_profit_rate

/-- The transfer-wait success criterion exactly as claim C3 words it:
either a balance rise of at least 99% of the transferred amount at some
poll within the ceiling, or a matching deposit-history entry with state
`confirmed`.  Stated for comparison with `waitForBinanceDeposit`, which
is translated from the source and reads only balances. -/
def claimWaitCriterion (env : TransferEnv) (amount : ℚ) (n : ℕ) : Bool :=
  ((List.range n).any fun i =>
    depositObserved env.initial_balance (env.balance_at i) amount) ||
  (env.deposit_entries.any fun e =>
    e.state == "confirmed" && decide (amount * (99/100) ≤ e.amount))

/-! ## Concrete fixtures for witnesses and counterexamples -/

/-- Risk limits used by concrete witness states. -/
def limitsW : RiskLimits :=
  { max_single_trade_krw := 1000000
    max_daily_volume_krw := 100000000
    max_concurrent_trades := 3
    max_slippage_percent := 1/2
    emergency_stop_loss_percent := 3
    min_exchange_balance_krw := 100000
    max_exposure_percent := 50 }

/-- A profitable concrete opportunity
(net profit rate 0.7 − 0.41 − 0.1 = 0.19 > 0). -/
def oppW : ArbitrageOpportunity :=
  { coin_symbol := "BTC"
    direction := "forward"
    coin_premium := -1
    tether_premium := 3/10
    total_fees := 41/100
    expected_profit := 7/10
    safety_margin := 1/10
    trade_amount_krw := 500000 }

/-- A concrete risk-manager state with two active trades. -/
def rmW : RiskManager :=
  { limits := limitsW
    active_trades := [("t1", oppW), ("t2", oppW)]
    daily_metrics :=
      { daily_volume_krw := 2000000
        daily_profit_krw := 10000
        daily_loss_krw := 5000
        total_trades := 4
        successful_trades := 3
        failed_trades := 1
        current_exposure_krw := 1000000 }
    last_reset_date := 0 }

/-- A concrete risk-manager state with three active trades
(`maxConcurrent = 3` is saturated). -/
def rm3 : RiskManager :=
  { limits := limitsW
    active_trades := [("t1", oppW), ("t2", oppW), ("t3", oppW)]
    daily_metrics :=
      { daily_volume_krw := 0
        daily_profit_krw := 0
        daily_loss_krw := 0
        total_trades := 3
        successful_trades := 0
        failed_trades := 0
        current_exposure_krw := 1500000 }
    last_reset_date := 0 }

/-- Risk limits for the Scenario-C emergency-stop state: every admission
predicate is generously satisfiable, `emergencyLossPct = 3`. -/
def limitsC1 : RiskLimits :=
  { max_single_trade_krw := 1000000000
    max_daily_volume_krw := 1000000000
    max_concurrent_trades := 5
    max_slippage_percent := 1/2
    emergency_stop_loss_percent := 3
    min_exchange_balance_krw := 0
    max_exposure_percent := 100 }

/-- Scenario C state: `dailyVolumeKrw = 10,000,000`,
`dailyLossKrw = 400,000`, so the daily loss ratio is 4% > 3%. -/
def rmC1 : RiskManager :=
  { limits := limitsC1
    active_trades := []
    daily_metrics :=
      { daily_volume_krw := 10000000
        daily_profit_krw := 0
        daily_loss_krw := 400000
        total_trades := 5
        successful_trades := 3
        failed_trades := 2
        current_exposure_krw := 0 }
    last_reset_date := 0 }

/-- A small, clearly profitable opportunity admissible under `limitsC1`. -/
def oppC1 : ArbitrageOpportunity :=
  { coin_symbol := "BTC"
    direction := "forward"
    coin_premium := -1
    tether_premium := 3/10
    total_fees := 31/100
    expected_profit := 7/10
    safety_margin := 1/10
    trade_amount_krw := 100000 }

/-- EX-K order book used by the sizing witness: top-of-book notionals
1,000,000 (bids) and 1,010,000 (asks). -/
def obAu : OrderBook := { bids := [(100, 10000)], asks := [(101, 10000)] }

/-- EX-U order book used by the sizing witness: notionals 20,000 and
30,000 USDT (2,000,000 / 3,000,000 KRW at rate 100). -/
def obAb : OrderBook := { bids := [(1, 20000)], asks := [(1, 30000)] }

/-- A market snapshot producing a forward opportunity: coin premium
(99 − 100)/100 × 100 = −1%, tether premium 0.3%, fees for an unknown
coin 0.41%. -/
def envA : MarketEnv :=
  { upbit_coin_price := some 99
    binance_coin_price := some 1
    upbit_usdt_price := some (1003/10)
    usd_krw_rate := some 100
    upbit_orderbook := some obAu
    binance_orderbook := some obAb }

/-- The opportunity `checkArbitrageOpportunity` emits on `envA` with
safety margin 0.1% and bounds [100,000, 200,000]: liquidity sizing gives
min(1,000,000, 1,010,000, 2,000,000, 3,000,000) × 0.3 = 300,000, clamped
to 200,000. -/
def oppA : ArbitrageOpportunity :=
  { coin_symbol := "DOGE"
    direction := "forward"
    coin_premium := -1
    tether_premium := 3/10
    total_fees := 41/100
    expected_profit := 7/10
    safety_margin := 1/10
    trade_amount_krw := 200000 }

/-- `envA` with both order-book fetches failing (the premium inputs are
still available). -/
def envC10 : MarketEnv :=
  { upbit_coin_price := some 99
    binance_coin_price := some 1
    upbit_usdt_price := some (1003/10)
    usd_krw_rate := some 100
    upbit_orderbook := none
    binance_orderbook := none }

/-- The opportunity emitted on `envC10`: identical to `oppA` except the
sizing falls back to the minimum amount. -/
def oppC10 : ArbitrageOpportunity :=
  { coin_symbol := "DOGE"
    direction := "forward"
    coin_premium := -1
    tether_premium := 3/10
    total_fees := 41/100
    expected_profit := 7/10
    safety_margin := 1/10
    trade_amount_krw := 100000 }

/-- A transfer wait in which the destination balance never moves but the
venue's deposit history carries a matching confirmed entry. -/
def envC3 : TransferEnv :=
  { initial_balance := 10
    balance_at := fun _ => 10
    deposit_entries := [{ amount := 100, state := "confirmed" }] }

/-! ## Helper lemmas on the active-trade ledger -/

theorem ledgerSum_nil : ledgerSum [] = 0 := rfl

theorem ledgerSum_cons (p : String × ArbitrageOpportunity)
    (t : List (String × ArbitrageOpportunity)) :
    ledgerSum (p :: t) = p.2.trade_amount_krw + ledgerSum t := by
  simp [ledgerSum]

theorem ledgerSum_append (l₁ l₂ : List (String × ArbitrageOpportunity)) :
    ledgerSum (l₁ ++ l₂) = ledgerSum l₁ + ledgerSum l₂ := by
  simp [ledgerSum]

theorem popFirst_eq_none_iff (trade_id : String)
    (l : List (String × ArbitrageOpportunity)) :
    popFirst trade_id l = none ↔ ∀ p ∈ l, p.1 ≠ trade_id := by
  induction l with
  | nil => simp [popFirst]
  | cons p t ih =>
    by_cases hp : p.1 = trade_id
    · simp [popFirst, hp]
    · simp only [popFirst, if_neg hp]
      cases hq : popFirst trade_id t with
      | none =>
        have ht := ih.mp hq
        simp only [hq, List.forall_mem_cons, true_iff]
        exact ⟨hp, fun q hq2 => ht q hq2⟩
      | some pr =>
        simp only [List.forall_mem_cons]
        constructor
        · intro h; cases h
        · intro h
          exact absurd hq (by simp [ih.mpr h.2])

theorem popFirst_sum (trade_id : String)
    (l : List (String × ArbitrageOpportunity))
    (o : ArbitrageOpportunity) (rest : List (String × ArbitrageOpportunity))
    (h : popFirst trade_id l = some (o, rest)) :
    ledgerSum l = o.trade_amount_krw + ledgerSum rest := by
  induction l generalizing rest with
  | nil => simp [popFirst] at h
  | cons p t ih =>
    by_cases hp : p.1 = trade_id
    · simp only [popFirst, if_pos hp, Option.some.injEq, Prod.mk.injEq] at h
      rw [ledgerSum_cons, h.1, h.2]
    · simp only [popFirst, if_neg hp] at h
      cases hq : popFirst trade_id t with
      | none => rw [hq] at h; cases h
      | some pr =>
        obtain ⟨o₂, rest₂⟩ := pr
        rw [hq] at h
        simp only [Option.some.injEq, Prod.mk.injEq] at h
        obtain ⟨ho, hrest⟩ := h
        subst ho
        rw [← hrest, ledgerSum_cons, ledgerSum_cons, ih rest₂ hq]
        ring

theorem dictInsert_fresh (trade_id : String) (o : ArbitrageOpportunity)
    (l : List (String × ArbitrageOpportunity))
    (h : ∀ p ∈ l, p.1 ≠ trade_id) :
    dictInsert trade_id o l = l ++ [(trade_id, o)] := by
  unfold dictInsert
  rw [if_neg]
  simp only [List.any_eq_true, decide_eq_true_eq, not_exists]
  intro p
  by_cases hp : p ∈ l
  · simp [hp, h p hp]
  · simp [hp]

/-! ## Claim C9 — completing an unknown trade is a state no-op -/

/-- Claim C9: calling `register_trade_complete` with a trade id absent
from the active-trade ledger leaves the whole risk-manager state (ledger
and every counter) unchanged; the Python code only logs a warning. -/
theorem registerTradeComplete_unknown_noop (trade_id : String)
    (profit_krw : ℚ) (success : Bool) (rm : RiskManager)
    (h : ∀ p ∈ rm.active_trades, p.1 ≠ trade_id) :
    registerTradeComplete trade_id profit_krw success rm = rm := by
  have hpop : popFirst trade_id rm.active_trades = none :=
    (popFirst_eq_none_iff trade_id rm.active_trades).mpr h
  simp [registerTradeComplete, hpop]

/-- Witness for C9: completing a never-registered trade on a concrete
two-trade state returns exactly that state. -/
theorem registerTradeComplete_unknown_noop_witness :
    registerTradeComplete "ghost" 12345 true rmW = rmW :=
  registerTradeComplete_unknown_noop "ghost" 12345 true rmW (by decide)

/-! ## Claim C8 — daily roll frame effect -/

/-- Claim C8: on the first `can_execute_trade` call after the local date
has advanced, the six daily counters are reset to zero in the one record
rebuild of `_check_daily_reset`, while `current_exposure_krw`, the
active-trade ledger and the risk limits keep exactly their prior
values. -/
theorem daily_roll_frame (today : ℤ) (o : ArbitrageOpportunity)
    (rm : RiskManager) (h : rm.last_reset_date < today) :
    (canExecuteTrade today o rm).1.daily_metrics.daily_volume_krw = 0 ∧
    (canExecuteTrade today o rm).1.daily_metrics.daily_profit_krw = 0 ∧
    (canExecuteTrade today o rm).1.daily_metrics.daily_loss_krw = 0 ∧
    (canExecuteTrade today o rm).1.daily_metrics.total_trades = 0 ∧
    (canExecuteTrade today o rm).1.daily_metrics.successful_trades = 0 ∧
    (canExecuteTrade today o rm).1.daily_metrics.failed_trades = 0 ∧
    (canExecuteTrade today o rm).1.daily_metrics.current_exposure_krw
      = rm.daily_metrics.current_exposure_krw ∧
    (canExecuteTrade today o rm).1.active_trades = rm.active_trades ∧
    (canExecuteTrade today o rm).1.limits = rm.limits := by
  have e : (canExecuteTrade today o rm).1 = checkDailyReset today rm := rfl
  rw [e]
  unfold checkDailyReset
  rw [if_pos h]
  simp

/-- Witness for C8 at a concrete state whose date has rolled. -/
theorem daily_roll_frame_witness :
    (canExecuteTrade 1 oppW rmW).1.daily_metrics.daily_volume_krw = 0 ∧
    (canExecuteTrade 1 oppW rmW).1.daily_metrics.daily_profit_krw = 0 ∧
    (canExecuteTrade 1 oppW rmW).1.daily_metrics.daily_loss_krw = 0 ∧
    (canExecuteTrade 1 oppW rmW).1.daily_metrics.total_trades = 0 ∧
    (canExecuteTrade 1 oppW rmW).1.daily_metrics.successful_trades = 0 ∧
    (canExecuteTrade 1 oppW rmW).1.daily_metrics.failed_trades = 0 ∧
    (canExecuteTrade 1 oppW rmW).1.daily_metrics.current_exposure_krw
      = rmW.daily_metrics.current_exposure_krw ∧
    (canExecuteTrade 1 oppW rmW).1.active_trades = rmW.active_trades ∧
    (canExecuteTrade 1 oppW rmW).1.limits = rmW.limits :=
  daily_roll_frame 1 oppW rmW (by decide)

/-! ## Claim C5 — risk ledger conservation -/

theorem exposureConserved_checkDailyReset (today : ℤ) (rm : RiskManager)
    (h : exposureConserved rm) :
    exposureConserved (checkDailyReset today rm) := by
  unfold checkDailyReset
  split
  · simpa [exposureConserved] using h
  · exact h

theorem registerTradeComplete_pop (trade_id : String) (profit : ℚ)
    (success : Bool) (rm : RiskManager) (o₂ : ArbitrageOpportunity)
    (rest : List (String × ArbitrageOpportunity))
    (hpop : popFirst trade_id rm.active_trades = some (o₂, rest)) :
    (registerTradeComplete trade_id profit success rm).active_trades = rest ∧
    (registerTradeComplete trade_id profit success rm).daily_metrics.current_exposure_krw
      = rm.daily_metrics.current_exposure_krw - o₂.trade_amount_krw := by
  unfold registerTradeComplete
  rw [hpop]
  constructor
  · rfl
  · split_ifs <;> rfl

/-- Claim C5: the conservation invariant
`current_exposure_krw = Σ trade_amount_krw over the active ledger` holds
for the freshly constructed manager and is preserved by every operation;
`register_trade_start` needs the fresh-id assumption (a duplicate id
would overwrite the dict entry while still adding to the exposure), and
`register_trade_complete` releases exactly the popped entry's amount.
`check_emergency_stop` reads the counters and returns without touching
the state (its embedding takes the state and returns only the value), so
it preserves the invariant by construction. -/
theorem risk_ledger_conservation (limits : RiskLimits) (day0 today : ℤ)
    (trade_id : String) (o : ArbitrageOpportunity) (profit : ℚ)
    (success : Bool) (rm : RiskManager) (hinv : exposureConserved rm) :
    exposureConserved (initRiskManager limits day0) ∧
    exposureConserved (canExecuteTrade today o rm).1 ∧
    ((∀ p ∈ rm.active_trades, p.1 ≠ trade_id) →
      exposureConserved (registerTradeStart trade_id o rm)) ∧
    exposureConserved (registerTradeComplete trade_id profit success rm) ∧
    (∀ o₂ rest, popFirst trade_id rm.active_trades = some (o₂, rest) →
      (registerTradeComplete trade_id profit success rm).active_trades = rest ∧
      (registerTradeComplete trade_id profit success rm).daily_metrics.current_exposure_krw
        = rm.daily_metrics.current_exposure_krw - o₂.trade_amount_krw) ∧
    exposureConserved (getTradingMetrics today rm).2 := by
  refine ⟨?_, ?_, ?_, ?_, ?_, ?_⟩
  · simp [exposureConserved, initRiskManager, ledgerSum]
  · exact exposureConserved_checkDailyReset today rm hinv
  · intro hfresh
    rw [exposureConserved] at hinv
    unfold exposureConserved registerTradeStart
    show rm.daily_metrics.current_exposure_krw + o.trade_amount_krw =
      ledgerSum (dictInsert trade_id o rm.active_trades)
    rw [dictInsert_fresh trade_id o rm.active_trades hfresh, ledgerSum_append,
      ledgerSum_cons, ledgerSum_nil, hinv]
    simp
  · cases hpop : popFirst trade_id rm.active_trades with
    | none =>
      have hid : registerTradeComplete trade_id profit success rm = rm := by
        unfold registerTradeComplete
        rw [hpop]
      rw [hid]
      exact hinv
    | some pr =>
      obtain ⟨o₂, rest⟩ := pr
      have h2 := registerTradeComplete_pop trade_id profit success rm o₂ rest hpop
      have hsum := popFirst_sum trade_id rm.active_trades o₂ rest hpop
      rw [exposureConserved] at hinv
      unfold exposureConserved
      rw [h2.1, h2.2, hinv, hsum]
      ring
  · intro o₂ rest hpop
    exact registerTradeComplete_pop trade_id profit success rm o₂ rest hpop
  · exact exposureConserved_checkDailyReset today rm hinv

/-- Witness for C5: the invariant holds after registering a fresh trade
on a concrete two-trade state, and completing trade `"t1"` there releases
its ledger entry and subtracts exactly its amount. -/
theorem risk_ledger_conservation_witness :
    exposureConserved (registerTradeStart "t9" oppW rmW) ∧
    exposureConserved (registerTradeComplete "t1" 10000 true rmW) ∧
    (registerTradeComplete "t1" 10000 true rmW).active_trades = [("t2", oppW)] ∧
    (registerTradeComplete "t1" 10000 true rmW).daily_metrics.current_exposure_krw
      = rmW.daily_metrics.current_exposure_krw - oppW.trade_amount_krw := by
  have hinv : exposureConserved rmW := by
    unfold exposureConserved ledgerSum
    norm_num [rmW, oppW]
  have h9 := risk_ledger_conservation limitsW 0 0 "t9" oppW 10000 true rmW hinv
  have h1 := risk_ledger_conservation limitsW 0 0 "t1" oppW 10000 true rmW hinv
  have hpop : popFirst "t1" rmW.active_trades = some (oppW, [("t2", oppW)]) := rfl
  exact ⟨h9.2.2.1 (by decide), h1.2.2.2.1,
    (h1.2.2.2.2.1 oppW [("t2", oppW)] hpop).1,
    (h1.2.2.2.2.1 oppW [("t2", oppW)] hpop).2⟩

/-! ## Claim C6 — admission order and first-failure reason -/

theorem admissionDecision_cases (rm : RiskManager) (o : ArbitrageOpportunity) :
    (¬ admitsConcurrency rm →
      admissionDecision rm o =
        (false, .maxConcurrentReached rm.limits.max_concurrent_trades)) ∧
    (admitsConcurrency rm → ¬ admitsSingleTrade rm o →
      admissionDecision rm o =
        (false, .exceedsSingleTradeLimit rm.limits.max_single_trade_krw)) ∧
    (admitsConcurrency rm → admitsSingleTrade rm o → ¬ admitsDailyVolume rm o →
      admissionDecision rm o =
        (false, .exceedsDailyVolumeLimit rm.limits.max_daily_volume_krw)) ∧
    (admitsConcurrency rm → admitsSingleTrade rm o → admitsDailyVolume rm o →
      ¬ admitsExposure rm o →
      admissionDecision rm o = (false, .exceedsExposureLimit)) ∧
    (admitsConcurrency rm → admitsSingleTrade rm o → admitsDailyVolume rm o →
      admitsExposure rm o → ¬ admitsProfit o →
      admissionDecision rm o = (false, .notProfitable)) ∧
    (admitsConcurrency rm → admitsSingleTrade rm o → admitsDailyVolume rm o →
      admitsExposure rm o → admitsProfit o →
      admissionDecision rm o = (true, .approved)) := by
  unfold admissionDecision admitsConcurrency admitsSingleTrade
    admitsDailyVolume admitsExposure admitsProfit
  refine ⟨?_, ?_, ?_, ?_, ?_, ?_⟩
  · intro h1
    rw [if_pos (not_lt.mp h1)]
  · intro h1 h2
    rw [if_neg (not_le.mpr h1), if_pos (not_le.mp h2)]
  · intro h1 h2 h3
    rw [if_neg (not_le.mpr h1), if_neg (not_lt.mpr h2), if_pos (not_le.mp h3)]
  · intro h1 h2 h3 h4
    rw [if_neg (not_le.mpr h1), if_neg (not_lt.mpr h2), if_neg (not_lt.mpr h3),
      if_pos (not_le.mp h4)]
  · intro h1 h2 h3 h4 h5
    rw [if_neg (not_le.mpr h1), if_neg (not_lt.mpr h2), if_neg (not_lt.mpr h3),
      if_neg (not_lt.mpr h4), if_pos (not_lt.mp h5)]
  · intro h1 h2 h3 h4 h5
    rw [if_neg (not_le.mpr h1), if_neg (not_lt.mpr h2), if_neg (not_lt.mpr h3),
      if_neg (not_lt.mpr h4), if_neg (not_le.mpr h5)]

/-- Claim C6, amended: `can_execute_trade` evaluates the five admission
predicates in the order (1) concurrency, (2) single-trade size, (3) daily
volume, (4) exposure, (5) net profit — all on the state left by the
daily-reset call — and returns false with the first failing predicate's
reason; the reason carries the configured limit that the f-string
interpolates (so the saturated-concurrency string is
"Maximum concurrent trades reached (3)" when `maxConcurrent = 3`, not the
bare "Maximum concurrent trades reached"). -/
theorem canExecuteTrade_first_failing (today : ℤ) (o : ArbitrageOpportunity)
    (rm rm2 : RiskManager) (hrm2 : rm2 = checkDailyReset today rm) :
    (¬ admitsConcurrency rm2 →
      (canExecuteTrade today o rm).2 =
        (false, .maxConcurrentReached rm2.limits.max_concurrent_trades)) ∧
    (admitsConcurrency rm2 → ¬ admitsSingleTrade rm2 o →
      (canExecuteTrade today o rm).2 =
        (false, .exceedsSingleTradeLimit rm2.limits.max_single_trade_krw)) ∧
    (admitsConcurrency rm2 → admitsSingleTrade rm2 o → ¬ admitsDailyVolume rm2 o →
      (canExecuteTrade today o rm).2 =
        (false, .exceedsDailyVolumeLimit rm2.limits.max_daily_volume_krw)) ∧
    (admitsConcurrency rm2 → admitsSingleTrade rm2 o → admitsDailyVolume rm2 o →
      ¬ admitsExposure rm2 o →
      (canExecuteTrade today o rm).2 = (false, .exceedsExposureLimit)) ∧
    (admitsConcurrency rm2 → admitsSingleTrade rm2 o → admitsDailyVolume rm2 o →
      admitsExposure rm2 o → ¬ admitsProfit o →
      (canExecuteTrade today o rm).2 = (false, .notProfitable)) ∧
    (admitsConcurrency rm2 → admitsSingleTrade rm2 o → admitsDailyVolume rm2 o →
      admitsExposure rm2 o → admitsProfit o →
      (canExecuteTrade today o rm).2 = (true, .approved)) := by
  subst hrm2
  exact admissionDecision_cases (checkDailyReset today rm) o

/-- Witness for C6: with `maxConcurrent = 3` and three active trades, a
fourth request is refused with the concurrency reason, whose rendered
string is exactly "Maximum concurrent trades reached (3)". -/
theorem canExecuteTrade_first_failing_witness :
    (canExecuteTrade 0 oppW rm3).2 =
      (false, AdmissionReason.maxConcurrentReached 3) ∧
    AdmissionReason.render (AdmissionReason.maxConcurrentReached 3) =
      "Maximum concurrent trades reached (3)" := by
  constructor
  · have h := canExecuteTrade_first_failing 0 oppW rm3 (checkDailyReset 0 rm3) rfl
    have hcr : checkDailyReset 0 rm3 = rm3 := rfl
    have h1 := h.1 (by rw [hcr]; unfold admitsConcurrency; decide)
    rw [hcr] at h1
    exact h1
  · decide

/-- Counterexample for C6 as stated: the refusal string on the saturated
concrete state is "Maximum concurrent trades reached (3)", not the bare
"Maximum concurrent trades reached" the claim demands. -/
theorem canExecuteTrade_reason_counterexample :
    (canExecuteTrade 0 oppW rm3).2.1 = false ∧
    AdmissionReason.render (canExecuteTrade 0 oppW rm3).2.2 =
      "Maximum concurrent trades reached (3)" ∧
    ¬ AdmissionReason.render (canExecuteTrade 0 oppW rm3).2.2 =
      "Maximum concurrent trades reached" := by
  refine ⟨by decide, by decide, by decide⟩

/-! ## Claim C1 — emergency stop is not a latch -/

/-- Counterexample for C1 as stated: in the Scenario-C state (daily loss
ratio 4% > `emergencyLossPct` = 3%) `check_emergency_stop` reports
tripped, yet the very next admission call returns
`(true, "Trade approved")` — `can_execute_trade` never consults the
stop — and after the daily roll the stop reports clear with no operator
involved. -/
theorem emergency_stop_not_latched_counterexample :
    (checkEmergencyStop rmC1).1 = true ∧
    (canExecuteTrade 0 oppC1 rmC1).2 = (true, AdmissionReason.approved) ∧
    (checkEmergencyStop (checkDailyReset 1 rmC1)).1 = false := by
  refine ⟨?_, ?_, ?_⟩
  · norm_num [checkEmergencyStop, checkFailureRateStop, rmC1, limitsC1]
  · norm_num [canExecuteTrade, admissionDecision, checkDailyReset, getMaxExposure,
      ArbitrageOpportunity.net_profit_rate, rmC1, limitsC1, oppC1]
  · norm_num [checkEmergencyStop, checkFailureRateStop, checkDailyReset,
      rmC1, limitsC1]

/-- Claim C1, amended: `check_emergency_stop` is a pure predicate of the
current daily counters — it trips exactly when the loss-ratio or the
failure-rate condition holds, with no stored latch; admission does not
read the loss/profit/success counters that trip it (so a tripped stop
does not make `can_execute_trade` return false); and the daily roll
resets the counters, clearing the trip without any operator reset. -/
theorem emergency_stop_recomputed (rm : RiskManager) (today : ℤ)
    (h : rm.last_reset_date < today) :
    ((checkEmergencyStop rm).1 = true ↔
      (0 < rm.daily_metrics.daily_volume_krw ∧
        rm.limits.emergency_stop_loss_percent <
          rm.daily_metrics.daily_loss_krw /
            rm.daily_metrics.daily_volume_krw * 100) ∨
      (10 < rm.daily_metrics.total_trades ∧
        50 < (rm.daily_metrics.failed_trades : ℚ) /
          rm.daily_metrics.total_trades * 100)) ∧
    (∀ (o : ArbitrageOpportunity) (lossKrw profitKrw : ℚ) (succ fail : ℕ),
      admissionDecision
        { rm with daily_metrics :=
          { rm.daily_metrics with
            daily_loss_krw := lossKrw
            daily_profit_krw := profitKrw
            successful_trades := succ
            failed_trades := fail } } o = admissionDecision rm o) ∧
    (checkEmergencyStop (checkDailyReset today rm)).1 = false := by
  refine ⟨?_, ?_, ?_⟩
  · unfold checkEmergencyStop checkFailureRateStop
    by_cases hA : 0 < rm.daily_metrics.daily_volume_krw ∧
        rm.limits.emergency_stop_loss_percent <
          rm.daily_metrics.daily_loss_krw /
            rm.daily_metrics.daily_volume_krw * 100
    · rw [if_pos hA]
      simp [hA]
    · rw [if_neg hA]
      by_cases hB : 10 < rm.daily_metrics.total_trades
      · rw [if_pos hB]
        by_cases hC : 50 < (rm.daily_metrics.failed_trades : ℚ) /
            rm.daily_metrics.total_trades * 100
        · rw [if_pos hC]
          simp [hA, hB, hC]
        · rw [if_neg hC]
          simp [hA, hB, hC]
      · rw [if_neg hB]
        simp [hA, hB]
  · intro o lossKrw profitKrw succ fail
    unfold admissionDecision
    rfl
  · unfold checkDailyReset
    rw [if_pos h]
    unfold checkEmergencyStop checkFailureRateStop
    norm_num

/-- Witness for C1's amended statement at the Scenario-C state. -/
theorem emergency_stop_recomputed_witness :
    (checkEmergencyStop rmC1).1 = true ∧
    (checkEmergencyStop (checkDailyReset 1 rmC1)).1 = false := by
  have h := emergency_stop_recomputed rmC1 1 (by decide)
  exact ⟨h.1.mpr (Or.inl (by norm_num [rmC1, limitsC1])), h.2.2⟩

/-! ## Claims C2, C7, C10 — opportunity shape, sizing, fallback -/

/-- Inversion of a successful `check_arbitrage_opportunity` call: every
field of the emitted opportunity in terms of the fetched premiums, and
the guard that admitted it. -/
theorem checkArbitrageOpportunity_some_inv (env : MarketEnv) (symbol : String)
    (sm minK maxK : ℚ) (o : ArbitrageOpportunity)
    (h : checkArbitrageOpportunity env symbol sm minK maxK = some o) :
    o.safety_margin = sm ∧
    o.total_fees = calculateTotalFees symbol env.binance_coin_price ∧
    o.trade_amount_krw =
      calculateOptimalTradeAmount env.upbit_orderbook env.binance_orderbook
        env.usd_krw_rate minK maxK ∧
    ((o.direction = "forward" ∧ o.coin_premium < 0 ∧
        o.expected_profit = |o.coin_premium| - o.tether_premium) ∨
     (o.direction = "reverse" ∧ 0 < o.coin_premium ∧
        o.expected_profit = o.coin_premium - o.tether_premium)) ∧
    o.total_fees + sm < o.expected_profit := by
  unfold checkArbitrageOpportunity at h
  cases hcp : calculatePremium symbol env.upbit_coin_price
      env.binance_coin_price env.usd_krw_rate with
  | none => rw [hcp] at h; simp at h
  | some cp =>
    rw [hcp] at h
    cases htp : calculateTetherPremium env.upbit_usdt_price env.usd_krw_rate with
    | none => rw [htp] at h; simp at h
    | some tp =>
      rw [htp] at h
      dsimp only at h
      by_cases hrev : cp.is_reverse_premium = true
      · rw [if_pos hrev] at h
        by_cases hguard : calculateTotalFees symbol env.binance_coin_price + sm <
            |cp.premium_rate| - tp.premium_rate
        · rw [if_pos hguard] at h
          injection h with h2
          subst h2
          have hneg : cp.premium_rate < 0 := by
            simpa [PremiumInfo.is_reverse_premium] using hrev
          exact ⟨rfl, rfl, rfl, Or.inl ⟨rfl, hneg, rfl⟩, hguard⟩
        · rw [if_neg hguard] at h
          simp at h
      · rw [if_neg hrev] at h
        by_cases hkim : cp.is_kimchi_premium = true
        · rw [if_pos hkim] at h
          by_cases hguard : calculateTotalFees symbol env.binance_coin_price + sm <
              cp.premium_rate - tp.premium_rate
          · rw [if_pos hguard] at h
            injection h with h2
            subst h2
            have hpos : 0 < cp.premium_rate := by
              simpa [PremiumInfo.is_kimchi_premium] using hkim
            exact ⟨rfl, rfl, rfl, Or.inr ⟨rfl, hpos, rfl⟩, hguard⟩
          · rw [if_neg hguard] at h
            simp at h
        · rw [if_neg hkim] at h
          simp at h

/-- Claim C2: whenever `check_arbitrage_opportunity` returns an
opportunity, its direction is forward exactly when the coin premium is
negative and reverse exactly when it is positive, its expected profit is
`|coinPremium| − tetherPremium` (forward) or `coinPremium − tetherPremium`
(reverse), and `expected_profit − total_fees − safety_margin` is strictly
positive at creation. -/
theorem opportunity_necessity (env : MarketEnv) (symbol : String)
    (sm minK maxK : ℚ) (o : ArbitrageOpportunity)
    (h : checkArbitrageOpportunity env symbol sm minK maxK = some o) :
    (o.direction = "forward" ↔ o.coin_premium < 0) ∧
    (o.direction = "reverse" ↔ 0 < o.coin_premium) ∧
    (o.direction = "forward" →
      o.expected_profit = |o.coin_premium| - o.tether_premium) ∧
    (o.direction = "reverse" →
      o.expected_profit = o.coin_premium - o.tether_premium) ∧
    0 < o.expected_profit - o.total_fees - o.safety_margin := by
  obtain ⟨hsm, _, _, hdir, hguard⟩ :=
    checkArbitrageOpportunity_some_inv env symbol sm minK maxK o h
  have hne : ("forward" : String) ≠ "reverse" := by decide
  rcases hdir with ⟨hd, hneg, he⟩ | ⟨hd, hpos, he⟩
  · refine ⟨?_, ?_, fun _ => he, ?_, ?_⟩
    · simp [hd, hneg]
    · rw [hd]
      exact ⟨fun hc => absurd hc hne, fun hc => absurd hneg (not_lt.mpr hc.le)⟩
    · intro hr
      rw [hd] at hr
      exact absurd hr hne
    · rw [hsm]
      linarith
  · refine ⟨?_, ?_, ?_, fun _ => he, ?_⟩
    · rw [hd]
      refine ⟨fun hc => absurd hc.symm hne, fun hc => absurd hpos (not_lt.mpr hc.le)⟩
    · simp [hd, hpos]
    · intro hr
      rw [hd] at hr
      exact absurd hr.symm hne
    · rw [hsm]
      linarith

/-- Witness for C2: on the concrete snapshot `envA` an opportunity is
emitted and satisfies every conjunct of `opportunity_necessity`. -/
theorem opportunity_necessity_witness :
    checkArbitrageOpportunity envA "DOGE" (1/10) 100000 200000 = some oppA ∧
    ((oppA.direction = "forward" ↔ oppA.coin_premium < 0) ∧
     (oppA.direction = "reverse" ↔ 0 < oppA.coin_premium) ∧
     (oppA.direction = "forward" →
       oppA.expected_profit = |oppA.coin_premium| - oppA.tether_premium) ∧
     (oppA.direction = "reverse" →
       oppA.expected_profit = oppA.coin_premium - oppA.tether_premium) ∧
     0 < oppA.expected_profit - oppA.total_fees - oppA.safety_margin) := by
  have hfees : WITHDRAWAL_FEES "DOGE" = none := rfl
  have h : checkArbitrageOpportunity envA "DOGE" (1/10) 100000 200000 = some oppA := by
    norm_num [checkArbitrageOpportunity, calculatePremium, calculateTetherPremium,
      calculateTotalFees, getWithdrawalFeeRate, hfees,
      PremiumInfo.is_reverse_premium, PremiumInfo.is_kimchi_premium,
      calculateOptimalTradeAmount, sumTop5, envA, oppA, obAu, obAb]
  exact ⟨h, opportunity_necessity envA "DOGE" (1/10) 100000 200000 oppA h⟩

/-- The all-inputs-present branch of the sizing routine, spelled out. -/
theorem calculateOptimalTradeAmount_some (uob bob : OrderBook) (r minA maxA : ℚ) :
    calculateOptimalTradeAmount (some uob) (some bob) (some r) minA maxA =
      max minA (min
        (min (min (sumTop5 uob.bids) (sumTop5 uob.asks))
          (min (sumTop5 bob.bids * r) (sumTop5 bob.asks * r)) * (3/10))
        maxA) := rfl

/-- Claim C7: when an opportunity is emitted, both books were fetched and
are non-empty, and `minKrw ≤ maxKrw`, the sized amount equals the minimum
of the four top-5 notional sums (EX-U sums converted at the fiat rate)
times the 30% depth-utilization factor, clamped to the bounds — hence it
lies in `[minKrw, maxKrw]`. -/
theorem opportunity_sizing (env : MarketEnv) (symbol : String)
    (sm minK maxK : ℚ) (o : ArbitrageOpportunity) (uob bob : OrderBook) (r : ℚ)
    (h : checkArbitrageOpportunity env symbol sm minK maxK = some o)
    (hu : env.upbit_orderbook = some uob)
    (hb : env.binance_orderbook = some bob)
    (hr : env.usd_krw_rate = some r)
    (_hubids : uob.bids ≠ []) (_huasks : uob.asks ≠ [])
    (_hbbids : bob.bids ≠ []) (_hbasks : bob.asks ≠ [])
    (hmm : minK ≤ maxK) :
    o.trade_amount_krw =
      max minK (min
        (min (min (sumTop5 uob.bids) (sumTop5 uob.asks))
          (min (sumTop5 bob.bids * r) (sumTop5 bob.asks * r)) * (3/10))
        maxK) ∧
    minK ≤ o.trade_amount_krw ∧ o.trade_amount_krw ≤ maxK := by
  obtain ⟨_, _, hamt, _, _⟩ :=
    checkArbitrageOpportunity_some_inv env symbol sm minK maxK o h
  rw [hu, hb, hr, calculateOptimalTradeAmount_some] at hamt
  refine ⟨hamt, ?_, ?_⟩
  · rw [hamt]
    exact le_max_left _ _
  · rw [hamt]
    exact max_le hmm (min_le_right _ _)

/-- Witness for C7 on the concrete snapshot `envA`. -/
theorem opportunity_sizing_witness :
    oppA.trade_amount_krw =
      max 100000 (min
        (min (min (sumTop5 obAu.bids) (sumTop5 obAu.asks))
          (min (sumTop5 obAb.bids * 100) (sumTop5 obAb.asks * 100)) * (3/10))
        200000) ∧
    (100000 : ℚ) ≤ oppA.trade_amount_krw ∧ oppA.trade_amount_krw ≤ 200000 := by
  have hfees : WITHDRAWAL_FEES "DOGE" = none := rfl
  have h : checkArbitrageOpportunity envA "DOGE" (1/10) 100000 200000 = some oppA := by
    norm_num [checkArbitrageOpportunity, calculatePremium, calculateTetherPremium,
      calculateTotalFees, getWithdrawalFeeRate, hfees,
      PremiumInfo.is_reverse_premium, PremiumInfo.is_kimchi_premium,
      calculateOptimalTradeAmount, sumTop5, envA, oppA, obAu, obAb]
  exact opportunity_sizing envA "DOGE" (1/10) 100000 200000 oppA obAu obAb 100
    h rfl rfl rfl (by decide) (by decide) (by decide) (by decide) (by norm_num)

/-- Claim C10: if either order-book fetch or the fiat-rate read fails
during sizing, `_calculate_optimal_trade_amount` returns exactly
`min_amount`; and `check_arbitrage_opportunity` can still emit an
opportunity sized at `minKrw` with no liquidity data behind it, as the
concrete `envC10` (both book fetches failing) shows. -/
theorem sizing_fallback (uob bob : Option OrderBook) (r : Option ℚ)
    (minA maxA : ℚ) (hfail : uob = none ∨ bob = none ∨ r = none) :
    calculateOptimalTradeAmount uob bob r minA maxA = minA ∧
    checkArbitrageOpportunity envC10 "DOGE" (1/10) 100000 200000 = some oppC10 ∧
    oppC10.trade_amount_krw = 100000 := by
  refine ⟨?_, ?_, rfl⟩
  · rcases hfail with hf | hf | hf <;> subst hf
    · rfl
    · cases uob <;> rfl
    · cases uob with
      | none => rfl
      | some u => cases bob <;> rfl
  · have hfees : WITHDRAWAL_FEES "DOGE" = none := rfl
    norm_num [checkArbitrageOpportunity, calculatePremium, calculateTetherPremium,
      calculateTotalFees, getWithdrawalFeeRate, hfees,
      PremiumInfo.is_reverse_premium, PremiumInfo.is_kimchi_premium,
      calculateOptimalTradeAmount, envC10, oppC10]

/-- Witness for C10 with the EX-K order-book fetch failing. -/
theorem sizing_fallback_witness :
    calculateOptimalTradeAmount none (some obAb) (some 100) 100000 200000
      = 100000 ∧
    checkArbitrageOpportunity envC10 "DOGE" (1/10) 100000 200000 = some oppC10 ∧
    oppC10.trade_amount_krw = 100000 :=
  sizing_fallback none (some obAb) (some 100) 100000 200000 (Or.inl rfl)

/-! ## Claim C4 — fiat-rate staleness -/

/-- Counterexample for C4 as stated: with the cache written at t = 0 and
every provider failing, at t = 65 min the cache is already 3900 s old —
past the 3600 s hard ceiling — so `get_usd_krw_rate` returns `None`
(unavailable), not the stale snapshot the claim's Scenario-F timeline
demands there. -/
theorem fiat_staleness_counterexample :
    getUsdKrwRate 300 (some (1300, 0)) (65 * 60) none = none ∧
    ¬ getUsdKrwRate 300 (some (1300, 0)) (65 * 60) none = some (1300, true) := by
  have h : getUsdKrwRate 300 (some (1300, 0)) (65 * 60) none = none := by
    norm_num [getUsdKrwRate, isCacheValid]
  exact ⟨h, by rw [h]; simp⟩

/-- Claim C4, amended: with the cache last updated at t = 0 and every
provider failing, `get_usd_krw_rate` serves the cached value through its
stale-cache branch whenever `cacheDuration ≤ age < 3600 s` (so already at
t = 30 min with the default 5-minute `cacheDuration`; the only staleness
flag is the logged warning), and returns unavailable (`None`) as soon as
`age ≥ 3600 s` — hence at t = 65 min as well as t = 70 min — upon which
`calculate_premium` returns `None`. -/
theorem fiat_staleness (cd v now₁ now₂ : ℚ) (h1 : cd ≤ now₁)
    (h2 : now₁ < 3600) (h3 : 3600 ≤ now₂) :
    getUsdKrwRate cd (some (v, 0)) now₁ none = some (v, true) ∧
    getUsdKrwRate cd (some (v, 0)) now₂ none = none ∧
    calculatePremium "BTC" (some 130000000) (some 100000)
      ((getUsdKrwRate cd (some (v, 0)) now₂ none).map Prod.fst) = none := by
  have hv1 : isCacheValid cd (some (v, 0)) now₁ = false := by
    simp only [isCacheValid, decide_eq_false_iff_not, not_lt]
    linarith
  have hv2 : isCacheValid cd (some (v, 0)) now₂ = false := by
    simp only [isCacheValid, decide_eq_false_iff_not, not_lt]
    linarith
  have e1 : getUsdKrwRate cd (some (v, 0)) now₁ none = some (v, true) := by
    unfold getUsdKrwRate
    rw [hv1]
    simp only [Bool.false_eq_true, if_false]
    rw [if_pos (by linarith : now₁ - 0 < 3600)]
  have e2 : getUsdKrwRate cd (some (v, 0)) now₂ none = none := by
    unfold getUsdKrwRate
    rw [hv2]
    simp only [Bool.false_eq_true, if_false]
    rw [if_neg (by linarith : ¬ now₂ - 0 < 3600)]
  refine ⟨e1, e2, ?_⟩
  rw [e2]
  rfl

/-- Witness for C4's amended statement on the Scenario-F timeline:
stale value at t = 30 min, unavailable and no premium at t = 70 min. -/
theorem fiat_staleness_witness :
    getUsdKrwRate 300 (some (1300, 0)) 1800 none = some (1300, true) ∧
    getUsdKrwRate 300 (some (1300, 0)) 4200 none = none ∧
    calculatePremium "BTC" (some 130000000) (some 100000)
      ((getUsdKrwRate 300 (some (1300, 0)) 4200 none).map Prod.fst) = none :=
  fiat_staleness 300 1300 1800 4200 (by norm_num) (by norm_num) (by norm_num)

/-! ## Claim C3 — transfer-wait success criterion and timeout -/

theorem waitLoop_isSome_iff (initial : ℚ) (bal : ℕ → ℚ) (amount : ℚ)
    (fuel : ℕ) : ∀ i, (waitLoop initial bal amount i fuel).isSome = true ↔
      ∃ k, k < fuel ∧ depositObserved initial (bal (i + k)) amount = true := by
  induction fuel with
  | zero => intro i; simp [waitLoop]
  | succ n ih =>
    intro i
    unfold waitLoop
    by_cases hd : depositObserved initial (bal i) amount = true
    · rw [if_pos hd]
      simp only [Option.isSome_some, true_iff]
      exact ⟨0, Nat.succ_pos n, by simpa using hd⟩
    · rw [if_neg hd, ih (i + 1)]
      constructor
      · rintro ⟨k, hk, hobs⟩
        refine ⟨k + 1, by omega, ?_⟩
        convert hobs using 3
        omega
      · rintro ⟨k, hk, hobs⟩
        cases k with
        | zero => exact absurd (by simpa using hobs) hd
        | succ m =>
          refine ⟨m, by omega, ?_⟩
          convert hobs using 3
          omega

theorem waitForBinanceDeposit_isSome_iff (env : TransferEnv) (amount : ℚ)
    (tm : ℕ) : (waitForBinanceDeposit env amount tm).isSome = true ↔
      ∃ i, i < transferNumPolls tm ∧
        depositObserved env.initial_balance (env.balance_at i) amount = true := by
  unfold waitForBinanceDeposit
  rw [waitLoop_isSome_iff]
  simp

/-- Counterexample for C3 as stated: in `envC3` the balance never rises
while the deposit history carries a matching confirmed entry, so the
claim's success criterion holds, yet the forward strategy's wait — which
never queries the deposit history — runs out its polling ceiling and
times out. -/
theorem transfer_wait_counterexample :
    claimWaitCriterion envC3 100 (transferNumPolls 30) = true ∧
    waitForBinanceDeposit envC3 100 30 = none := by
  constructor
  · unfold claimWaitCriterion
    have hh : (envC3.deposit_entries.any fun e =>
        e.state == "confirmed" && decide ((100 : ℚ) * (99/100) ≤ e.amount)) = true := by
      norm_num [envC3]
    rw [hh, Bool.or_true]
  · have hobs : ∀ i,
        depositObserved envC3.initial_balance (envC3.balance_at i) 100 = false := by
      intro i
      norm_num [depositObserved, envC3]
    cases hw : waitForBinanceDeposit envC3 100 30 with
    | none => rfl
    | some j =>
      exfalso
      have hs : (waitForBinanceDeposit envC3 100 30).isSome = true := by
        rw [hw]; rfl
      obtain ⟨i, _, hobsi⟩ := (waitForBinanceDeposit_isSome_iff envC3 100 30).mp hs
      rw [hobs i] at hobsi
      exact Bool.false_ne_true hobsi

/-- Claim C3, amended: in the forward strategy's transfer-wait states the
wait succeeds before the `transferTimeoutMinutes` ceiling iff some poll
(30 s cadence, `transferTimeoutMinutes × 60 / 30` polls) observes the
destination balance rising by at least 99% of the transferred amount —
the deposit history is not consulted in this strategy; and if the
ceiling is reached without that, the trade terminates failed and
`register_trade_complete` is called exactly once, with `success = false`
and profit 0. -/
theorem transfer_wait_success_and_timeout (env : TransferEnv) (amount : ℚ)
    (tm : ℕ) (p : ℚ) :
    ((waitForBinanceDeposit env amount tm).isSome = true ↔
      ∃ i, i < transferNumPolls tm ∧
        depositObserved env.initial_balance (env.balance_at i) amount = true) ∧
    (waitForBinanceDeposit env amount tm = none →
      registerCompleteCalls
        (forwardTradeAfterTransferWait (waitForBinanceDeposit env amount tm) p)
        = [(0, false)]) := by
  refine ⟨waitForBinanceDeposit_isSome_iff env amount tm, ?_⟩
  intro hnone
  rw [hnone]
  rfl

/-- Witness for C3's amended statement: on the timing-out `envC3` wait,
exactly one completion call `(0, false)` is registered. -/
theorem transfer_wait_success_and_timeout_witness :
    registerCompleteCalls
      (forwardTradeAfterTransferWait (waitForBinanceDeposit envC3 100 30) 7)
      = [(0, false)] := by
  have hobs : ∀ i,
      depositObserved envC3.initial_balance (envC3.balance_at i) 100 = false := by
    intro i
    norm_num [depositObserved, envC3]
  have hnone : waitForBinanceDeposit envC3 100 30 = none := by
    cases hw : waitForBinanceDeposit envC3 100 30 with
    | none => rfl
    | some j =>
      exfalso
      have hs : (waitForBinanceDeposit envC3 100 30).isSome = true := by
        rw [hw]; rfl
      obtain ⟨i, _, hobsi⟩ := (waitForBinanceDeposit_isSome_iff envC3 100 30).mp hs
      rw [hobs i] at hobsi
      exact Bool.false_ne_true hobsi
  exact (transfer_wait_success_and_timeout envC3 100 30 7).2 hnone

end Kimchi
